import Mathlib

/-!
Verification of the solbot core components: the PumpFun NATS listener
(subscription session) and the Solana RPC failover executor.  The Lean
definitions below are shallow embeddings of the TypeScript source:
`PumpFunListener` (listeners module) and `executeRpcCall` /
`switchToNextRpc` / `getSolanaConnection` (solana service module).
JavaScript-specific behaviour (truthiness, `||` chains, `String.split`,
`String.trim`, `indexOf`) is embedded explicitly; `JSON.parse` is an
external library routine and is abstracted as an oracle
`parse : String → Option Json` (`none` models a thrown parse error).
-/

namespace Solbot

/-- Model of a parsed JSON value, as produced by the `JSON.parse` oracle. -/
inductive Json where
  | null
  | bool (b : Bool)
  | num (n : Int)
  | str (s : String)
  | arr (xs : List Json)
  | obj (fields : List (String × Json))

/-- JavaScript truthiness of a JSON value (`null`, `false`, `0`, `""` are falsy). -/
def truthyJson : Json → Bool
  | Json.null => false
  | Json.bool b => b
  | Json.num n => n != 0
  | Json.str s => s != ""
  | Json.arr _ => true
  | Json.obj _ => true

/-- JavaScript truthiness where `none` models `undefined`. -/
def truthyOpt : Option Json → Bool
  | none => false
  | some v => truthyJson v

/-- JavaScript `a || b`: returns `a` when truthy, else `b`. -/
def jsOr (a b : Option Json) : Option Json :=
  if truthyOpt a then a else b

/-- First binding of a key in a JS object's field list. -/
def lookupField : List (String × Json) → String → Option Json
  | [], _ => none
  | (k, v) :: fs, key => if k = key then some v else lookupField fs key

/-- JavaScript property access `v.key`: fields of an object, `undefined`
(`none`) on non-object primitives.  Access on `null` throws instead; the
caller (`dispatchDecoded`) models that case separately. -/
def jsGet : Json → String → Option Json
  | Json.obj fs, key => lookupField fs key
  | _, _ => none

/-- Whether a JSON value is a string (JS `typeof v === "string"`). -/
def isJsonStr : Json → Bool
  | Json.str _ => true
  | _ => false

/-- Whitespace as matched by the frames' `\s` (space, tab, CR, LF). -/
def isWsChar (c : Char) : Bool :=
  c = ' ' || c = '\t' || c = '\r' || c = '\n'

/-- Drop leading whitespace characters. -/
def dropLeadingWs : List Char → List Char
  | [] => []
  | c :: cs => if isWsChar c then dropLeadingWs cs else c :: cs

/-- JavaScript `String.prototype.trim` on the frame alphabet. -/
def jsTrim (s : String) : String :=
  String.mk (((dropLeadingWs s.data).reverse |> dropLeadingWs).reverse)

/-- Tokenizer for JavaScript `str.split(/\s+/)`.  Empty tokens are dropped;
on the trimmed strings the listener feeds it this agrees exactly with the
JS regex split (a leading/trailing empty token arises only on untrimmed
input, which the listener never passes). -/
def jsSplitWsAux : List Char → List Char → List String
  | [], cur => if cur.isEmpty then [] else [String.mk cur.reverse]
  | c :: cs, cur =>
    if isWsChar c then
      if cur.isEmpty then jsSplitWsAux cs []
      else String.mk cur.reverse :: jsSplitWsAux cs []
    else jsSplitWsAux cs (c :: cur)

/-- JavaScript `messageStr.split(/\s+/)` on a trimmed string. -/
def jsSplitWs (s : String) : List String :=
  jsSplitWsAux s.data []

/-- Character-list equality test (computes by iterated head comparison). -/
def beqChars : List Char → List Char → Bool
  | [], [] => true
  | a :: as, b :: bs => if a = b then beqChars as bs else false
  | _, _ => false

/-- String equality via the character lists (JS `===` on strings). -/
def strEq (a b : String) : Bool :=
  beqChars a.data b.data

/-- Prefix test on character lists. -/
def startsWithAux : List Char → List Char → Bool
  | _, [] => true
  | [], _ :: _ => false
  | c :: cs, p :: ps => if c = p then startsWithAux cs ps else false

/-- JavaScript `s.startsWith(pre)`. -/
def strStartsWith (s pre : String) : Bool :=
  startsWithAux s.data pre.data

/-- Characters after the first CRLF, `none` when no CRLF occurs
(JS `messageStr.indexOf('\r\n')` returning `-1`). -/
def afterCrlf : List Char → Option (List Char)
  | [] => none
  | c :: cs =>
    match cs with
    | [] => none
    | c2 :: rest => if c = '\r' && c2 = '\n' then some rest else afterCrlf cs

/-- The listener's payload extraction: everything after the first CRLF of
the message string (`messageStr.substring(payloadIndex + 2)`). -/
def extractPayload (messageStr : String) : Option String :=
  (afterCrlf messageStr.data).map String.mk

namespace PumpFunListener

/-- Payload decode from `handleNatsMsg`: one `JSON.parse`, and a second
pass when the first yields a string.  Returns the decoded value together
with the number of parse passes performed; `none` models a thrown parse
error at either pass. -/
def decodePayload (parse : String → Option Json) (payloadStr : String) :
    Option (Json × Nat) :=
  match parse payloadStr with
  | none => none
  | some (Json.str inner) =>
    match parse inner with
    | none => none
    | some v => some (v, 2)
  | some v => some (v, 1)

/-- The token-address alias chain
`tokenData.coinMint || tokenData.mint || tokenData.token_address || tokenData.address`. -/
def extractTokenAddress (tokenData : Json) : Option Json :=
  jsOr (jsGet tokenData "coinMint")
    (jsOr (jsGet tokenData "mint")
      (jsOr (jsGet tokenData "token_address") (jsGet tokenData "address")))

/-- Spec-side alias order, for comparison with `extractTokenAddress`. -/
def specAliasOrder : List String :=
  ["coinMint", "mint", "token_address", "address"]

/-- Spec-side reading of identifier extraction: the value of the first
alias that yields a (truthy) identifier, in order. -/
def specFirstTruthyAlias (tokenData : Json) : List String → Option Json
  | [] => none
  | k :: ks =>
    if truthyOpt (jsGet tokenData k) then jsGet tokenData k
    else specFirstTruthyAlias tokenData ks

/-- Observable outcome of `handleNatsMsg` on one frame. -/
inductive MsgOutcome where
  | malformedHeader
  | missingSeparator
  | ignored
  | parseError
  | missingIdentifier
  | dispatched (addr : Json) (data : Json)

/-- A dropped frame for which a warn/error diagnostic is logged. -/
def droppedWithDiagnostic : MsgOutcome → Bool
  | MsgOutcome.malformedHeader => true
  | MsgOutcome.missingSeparator => true
  | MsgOutcome.parseError => true
  | MsgOutcome.missingIdentifier => true
  | _ => false

/-- Dispatch step over the decoded payload object.  A `null` payload makes
`tokenData.coinMint` throw a TypeError which the surrounding catch turns
into the same dropped-with-error-log outcome as a parse failure. -/
def dispatchDecoded (tokenData : Json) : MsgOutcome :=
  match tokenData with
  | Json.null => MsgOutcome.parseError
  | _ =>
    match extractTokenAddress tokenData with
    | some a =>
      if truthyJson a then MsgOutcome.dispatched a tokenData
      else MsgOutcome.missingIdentifier
    | none => MsgOutcome.missingIdentifier

/-- `handleNatsMsg`: header split on whitespace, malformed when fewer
than 4 fields; payload located by the first CRLF (the declared byte count
is not consulted); only `advancedCoinGraduated` frames with SID 2 are
decoded and dispatched. -/
def handleNatsMsg (parse : String → Option Json) (messageStr : String) :
    MsgOutcome :=
  let parts := jsSplitWs messageStr
  if parts.length < 4 then MsgOutcome.malformedHeader
  else
    let subject := parts.getD 1 ""
    let sid := parts.getD 2 ""
    match extractPayload messageStr with
    | none => MsgOutcome.missingSeparator
    | some payloadStr =>
      if sid = "2" ∧ subject = "advancedCoinGraduated" then
        match decodePayload parse payloadStr with
        | none => MsgOutcome.parseError
        | some (tokenData, _) => dispatchDecoded tokenData
      else MsgOutcome.ignored

/-- Decimal digit accumulator for `specDeclaredByteCount`. -/
def digitsToNat : List Char → Nat → Option Nat
  | [], acc => some acc
  | c :: cs, acc =>
    if c.isDigit then digitsToNat cs (acc * 10 + (c.toNat - 48)) else none

/-- Spec-side reading of a frame's declared byte count: the fourth
whitespace-separated header field (`MSG <subject> <sid> <#bytes>`); the
source leaves this field unread. -/
def specDeclaredByteCount (messageStr : String) : Option Nat :=
  match ((jsSplitWs messageStr).getD 3 "").data with
  | [] => none
  | ds => digitsToNat ds 0

/-- The `NatsState` enum of the listener. -/
inductive NatsState where
  | DISCONNECTED
  | CONNECTING
  | CONNECTED_WAITING_FOR_INFO_OR_PING
  | CONNECTED_AWAITING_PONG
  | SUBSCRIBING
  | OPERATIONAL
deriving DecidableEq

/-- WebSocket `readyState`. -/
inductive WsReady where
  | CONNECTING
  | OPEN
  | CLOSING
  | CLOSED
deriving DecidableEq

/-- The `ws` field: socket ready state, plus whether the close/error
listeners are still attached (`stop` calls `removeAllListeners`). -/
structure WsHandle where
  readyState : WsReady
  handlersAttached : Bool
deriving DecidableEq

/-- Instance state of `PumpFunListener`.  `pendingReconnects` counts
reconnect `setTimeout`s scheduled by the close handler that have not yet
fired; the source keeps no handle to them. -/
structure Listener where
  natsState : NatsState
  ws : Option WsHandle
  clientKeepAlive : Bool
  pendingReconnects : Nat
  urlConfigured : Bool
deriving DecidableEq

/-- Outgoing NATS commands (payload text abstracted). -/
inductive OutFrame where
  | connectFrame
  | subFrame (topic sid : String)
  | pingFrame
  | pongFrame
deriving DecidableEq

/-- Observable side effects of one event-handler run. -/
inductive Action where
  | sendFrame (f : OutFrame)
  | openSocket
  | closeSocket
  | scheduleReconnect
  | dispatchTokens (addr : Json) (data : Json)
  | diagnostic

/-- Events delivered to the listener: public API calls, socket callbacks,
and a scheduled reconnect timer firing. -/
inductive Event where
  | start
  | wsOpen
  | message (data : String)
  | wsError
  | wsClose
  | reconnectFire
  | stop
deriving DecidableEq

/-- Frame classification of the `message` handler's if-chain. -/
inductive FrameKind where
  | info
  | ping
  | msg
  | okFrame
  | pong
  | errFrame
  | other
deriving DecidableEq

/-- The if-chain over the trimmed message string. -/
def classifyFrame (m : String) : FrameKind :=
  if strStartsWith m "INFO" then FrameKind.info
  else if strEq m "PING" then FrameKind.ping
  else if strStartsWith m "MSG" then FrameKind.msg
  else if strEq m "+OK" then FrameKind.okFrame
  else if strEq m "PONG" then FrameKind.pong
  else if strStartsWith m "-ERR" then FrameKind.errFrame
  else FrameKind.other

/-- `sendNatsCommand`: emits the frame only when the socket is open. -/
def sendNatsCommand (l : Listener) (f : OutFrame) : List Action :=
  match l.ws with
  | some h => if h.readyState = WsReady.OPEN then [Action.sendFrame f] else []
  | none => []

/-- `subscribeToTopics`: state to SUBSCRIBING and three SUB commands. -/
def subscribeToTopics (l : Listener) : Listener × List Action :=
  let l1 := { l with natsState := NatsState.SUBSCRIBING }
  (l1,
    sendNatsCommand l1 (OutFrame.subFrame "coinImageUpdated.>" "1") ++
    sendNatsCommand l1 (OutFrame.subFrame "advancedCoinGraduated" "2") ++
    sendNatsCommand l1 (OutFrame.subFrame "advancedNewCoinCreated" "3"))

/-- `connect`: bails to DISCONNECTED without a configured URL, else opens
a fresh socket (readyState CONNECTING, handlers attached) and moves to
CONNECTING. -/
def connect (l : Listener) : Listener × List Action :=
  if l.urlConfigured then
    ({ l with natsState := NatsState.CONNECTING,
              ws := some { readyState := WsReady.CONNECTING, handlersAttached := true } },
      [Action.openSocket])
  else
    ({ l with natsState := NatsState.DISCONNECTED }, [])

/-- The socket `open` handler: send CONNECT, start the client keep-alive.
Per socket semantics an `open` event fires only on a connecting socket. -/
def onOpen (l : Listener) : Listener × List Action :=
  match l.ws with
  | some h =>
    if h.readyState = WsReady.CONNECTING then
      let l1 := { l with
        ws := some { h with readyState := WsReady.OPEN },
        natsState := NatsState.CONNECTED_WAITING_FOR_INFO_OR_PING }
      ({ l1 with clientKeepAlive := true }, sendNatsCommand l1 OutFrame.connectFrame)
    else (l, [])
  | none => (l, [])

/-- Actions produced by a `handleNatsMsg` outcome: dispatch invokes every
registered callback with (tokenAddress, tokenData); dropped frames log a
warn/error diagnostic. -/
def outcomeActions : MsgOutcome → List Action
  | MsgOutcome.dispatched a d => [Action.dispatchTokens a d]
  | MsgOutcome.ignored => []
  | _ => [Action.diagnostic]

/-- The socket `message` handler (if-chain over the trimmed text). -/
def onMessage (parse : String → Option Json) (l : Listener) (data : String) :
    Listener × List Action :=
  let m := jsTrim data
  match classifyFrame m with
  | FrameKind.info =>
    if l.natsState = NatsState.CONNECTED_WAITING_FOR_INFO_OR_PING then
      subscribeToTopics l
    else (l, [])
  | FrameKind.ping =>
    let pongActs := sendNatsCommand l OutFrame.pongFrame
    if l.natsState = NatsState.CONNECTED_WAITING_FOR_INFO_OR_PING then
      let l1 := { l with natsState := NatsState.CONNECTED_AWAITING_PONG }
      let (l2, acts) := subscribeToTopics l1
      (l2, pongActs ++ acts)
    else (l, pongActs)
  | FrameKind.msg => (l, outcomeActions (handleNatsMsg parse m))
  | FrameKind.okFrame =>
    if l.natsState = NatsState.SUBSCRIBING then
      ({ l with natsState := NatsState.OPERATIONAL }, [])
    else (l, [])
  | FrameKind.pong => (l, [])
  | FrameKind.errFrame => (l, [])
  | FrameKind.other => (l, [])

/-- The socket `error` handler: fires only while the error listener is
attached; the body only sets `natsState := DISCONNECTED` (the comment in
the source defers reconnect work to the `close` handler).  The errored
socket itself will not open again: its readyState becomes CLOSED. -/
def onError (l : Listener) : Listener × List Action :=
  match l.ws with
  | some h =>
    if h.handlersAttached then
      ({ l with natsState := NatsState.DISCONNECTED,
                ws := some { h with readyState := WsReady.CLOSED } }, [])
    else (l, [])
  | none => (l, [])

/-- The socket `close` handler: DISCONNECTED, stop the client keep-alive,
and schedule exactly one reconnect after the fixed delay. -/
def onClose (l : Listener) : Listener × List Action :=
  match l.ws with
  | some h =>
    if h.handlersAttached then
      ({ l with natsState := NatsState.DISCONNECTED,
                clientKeepAlive := false,
                ws := some { h with readyState := WsReady.CLOSED },
                pendingReconnects := l.pendingReconnects + 1 },
        [Action.scheduleReconnect])
    else (l, [])
  | none => (l, [])

/-- A previously scheduled reconnect timer fires: `() => this.connect()`.
The source holds no handle to the timer, so nothing ever cancels it. -/
def reconnectFire (l : Listener) : Listener × List Action :=
  if l.pendingReconnects > 0 then
    connect { l with pendingReconnects := l.pendingReconnects - 1 }
  else (l, [])

/-- `stop`: set DISCONNECTED, stop the keep-alive interval, detach the
close/error listeners, close the socket when open or connecting, and drop
the handle.  Pending reconnect timers are left untouched. -/
def stop (l : Listener) : Listener × List Action :=
  let l1 := { l with natsState := NatsState.DISCONNECTED, clientKeepAlive := false }
  match l1.ws with
  | some h =>
    ({ l1 with ws := none },
      if h.readyState = WsReady.OPEN || h.readyState = WsReady.CONNECTING then
        [Action.closeSocket]
      else [])
  | none => (l1, [])

/-- `start`: refuses without a URL or when not DISCONNECTED. -/
def start (l : Listener) : Listener × List Action :=
  if !l.urlConfigured then (l, [])
  else if l.natsState ≠ NatsState.DISCONNECTED then (l, [])
  else connect l

/-- One event-handler step of the listener. -/
def step (parse : String → Option Json) (l : Listener) : Event → Listener × List Action
  | Event.start => start l
  | Event.wsOpen => onOpen l
  | Event.message d => onMessage parse l d
  | Event.wsError => onError l
  | Event.wsClose => onClose l
  | Event.reconnectFire => reconnectFire l
  | Event.stop => stop l

/-- Number of reconnects scheduled by a handler run. -/
def countScheduleReconnect : List Action → Nat
  | [] => 0
  | Action.scheduleReconnect :: rest => countScheduleReconnect rest + 1
  | _ :: rest => countScheduleReconnect rest

/-- Single-socket well-formedness: a disconnected session's socket (if
any) is closed — the socket library fires `open` only on a connecting
socket, and every handler that sets DISCONNECTED leaves a closed or
absent socket; and no socket exists without a configured URL. -/
def wf (l : Listener) : Bool :=
  (match l.natsState, l.ws with
   | NatsState.DISCONNECTED, some h => h.readyState = WsReady.CLOSED
   | _, _ => true) &&
  (l.urlConfigured || l.ws.isNone)

end PumpFunListener

namespace SolanaService

/-- Module-level connection state: `currentConnection` (the endpoint URL
of the live `Connection`, `none` before the first call) and
`currentRpcIndex`. -/
structure RpcState where
  currentConnection : Option String
  currentRpcIndex : Nat
deriving DecidableEq

/-- Errors surfaced by `executeRpcCall`: an error thrown by the action, the
configuration error for an empty endpoint list, and the final
`Exhausted all RPC failover attempts` fallback. -/
inductive RpcErr (E : Type) where
  | actionErr (e : E)
  | noEndpoints
  | exhausted
deriving DecidableEq

/-- `getSolanaConnection`: returns the current connection, creating one
for the endpoint at `currentRpcIndex` when absent; `none` models the
thrown configuration error for an empty endpoint list. -/
def getSolanaConnection (endpoints : List String) (st : RpcState) :
    Option (String × RpcState) :=
  match st.currentConnection with
  | some c => some (c, st)
  | none =>
    if endpoints.isEmpty then none
    else
      let url := endpoints.getD st.currentRpcIndex ""
      some (url, { st with currentConnection := some url })

/-- `switchToNextRpc`: advance the index modulo the pool size and connect
to the new current endpoint. -/
def switchToNextRpc (endpoints : List String) (st : RpcState) :
    String × RpcState :=
  let idx := (st.currentRpcIndex + 1) % endpoints.length
  let url := endpoints.getD idx ""
  (url, { currentRpcIndex := idx, currentConnection := some url })

/-- Result of the inner per-endpoint attempt loop. -/
inductive InnerResult (E T : Type) where
  | ok (v : T)
  | thrown (e : E)
  | switchRpc (e : E)
  | fellThrough

/-- The inner attempt loop of `executeRpcCall` on one endpoint.  `fuel` is
the number of attempts left (initially `rpcRetryAttempts`); `total` is the
running count of action invocations across all endpoints, also used to
index the action oracle.  `fuel > 0` inside the body is the source's
`attempt < rpcRetryAttempts - 1` (more retries remain on this endpoint). -/
def innerLoop {E T : Type} (action : String → Nat → Except E T)
    (isRetriable : E → Bool) (conn : String) (lastCycle : Bool) :
    Nat → Nat → InnerResult E T × Nat
  | 0, total => (InnerResult.fellThrough, total)
  | fuel + 1, total =>
    match action conn total with
    | Except.ok v => (InnerResult.ok v, total + 1)
    | Except.error e =>
      if fuel > 0 then
        if isRetriable e then innerLoop action isRetriable conn lastCycle fuel (total + 1)
        else (InnerResult.thrown e, total + 1)
      else if isRetriable e && !lastCycle then (InnerResult.switchRpc e, total + 1)
      else (InnerResult.thrown e, total + 1)

/-- The outer cycle loop of `executeRpcCall`.  `remaining + 1` cycles are
left; `remaining = 0` is the last cycle (`cycle = endpoints.length - 1`).
On a `switchRpc` break (or a zero-attempt fall-through) with cycles left,
the pool advances; otherwise the loop runs out and the exhausted fallback
error is thrown. -/
def outerLoop {E T : Type} (endpoints : List String) (retryAttempts : Nat)
    (action : String → Nat → Except E T) (isRetriable : E → Bool) :
    Nat → RpcState → Nat → Except (RpcErr E) T × RpcState × Nat
  | 0, st, total => (Except.error RpcErr.exhausted, st, total)
  | remaining + 1, st, total =>
    match getSolanaConnection endpoints st with
    | none => (Except.error RpcErr.noEndpoints, st, total)
    | some (conn, st1) =>
      match innerLoop action isRetriable conn (remaining == 0) retryAttempts total with
      | (InnerResult.ok v, total1) => (Except.ok v, st1, total1)
      | (InnerResult.thrown e, total1) => (Except.error (RpcErr.actionErr e), st1, total1)
      | (InnerResult.switchRpc _, total1) =>
        if remaining > 0 then
          outerLoop endpoints retryAttempts action isRetriable remaining
            (switchToNextRpc endpoints st1).2 total1
        else
          outerLoop endpoints retryAttempts action isRetriable remaining st1 total1
      | (InnerResult.fellThrough, total1) =>
        if remaining > 0 then
          outerLoop endpoints retryAttempts action isRetriable remaining
            (switchToNextRpc endpoints st1).2 total1
        else
          outerLoop endpoints retryAttempts action isRetriable remaining st1 total1

/-- `executeRpcCall`: up to one full pass over the endpoint pool, up to
`retryAttempts` attempts per endpoint.  The action oracle is indexed by
the endpoint it runs against and the number of attempts made before it.
Returns the result or terminal error, the final connection state, and the
total number of attempts performed. -/
def executeRpcCall {E T : Type} (endpoints : List String) (retryAttempts : Nat)
    (action : String → Nat → Except E T) (isRetriable : E → Bool)
    (st : RpcState) : Except (RpcErr E) T × RpcState × Nat :=
  outerLoop endpoints retryAttempts action isRetriable endpoints.length st 0

end SolanaService

/-- Parse oracle that fails on every payload. -/
def parseNone : String → Option Json := fun _ => none

/-- Parse oracle with a double-encoded payload (`S` decodes to the string
`T`, which decodes to an object) and a directly structured payload `O`. -/
def parseTwoPass : String → Option Json := fun s =>
  if s = "S" then some (Json.str "T")
  else if s = "T" then some (Json.obj [])
  else if s = "O" then some (Json.num 5)
  else none

/-- A freshly constructed listener with a configured stream URL. -/
def listenerInit : PumpFunListener.Listener :=
  { natsState := PumpFunListener.NatsState.DISCONNECTED, ws := none,
    clientKeepAlive := false, pendingReconnects := 0, urlConfigured := true }

/-- An operational session: open socket, handlers attached, keep-alive on. -/
def listenerOperational : PumpFunListener.Listener :=
  { natsState := PumpFunListener.NatsState.OPERATIONAL,
    ws := some { readyState := PumpFunListener.WsReady.OPEN, handlersAttached := true },
    clientKeepAlive := true, pendingReconnects := 0, urlConfigured := true }

/-- The listener after the event trace start, socket open, socket close
(which schedules a reconnect timer), explicit stop. -/
def listenerStoppedAfterClose : PumpFunListener.Listener :=
  (PumpFunListener.step parseNone
    (PumpFunListener.step parseNone
      (PumpFunListener.step parseNone
        (PumpFunListener.step parseNone listenerInit PumpFunListener.Event.start).1
        PumpFunListener.Event.wsOpen).1
      PumpFunListener.Event.wsClose).1
    PumpFunListener.Event.stop).1

/-- Decoded payload carrying both a `mint` and an `address` alias. -/
def tdMintX : Json := Json.obj [("mint", Json.str "X"), ("address", Json.str "Y")]

/-- Decoded payload with only a truthy `coinMint` alias. -/
def tdCoinMintC : Json := Json.obj [("coinMint", Json.str "C")]

/-- Decoded payload whose `coinMint` is present but the empty string. -/
def tdEmptyCoinMint : Json :=
  Json.obj [("coinMint", Json.str ""), ("mint", Json.str "X")]

/-! ## Helper lemmas -/

/-- Unfolding equation for the CRLF scanner on two or more characters. -/
theorem afterCrlf_cons_cons (c c2 : Char) (cs : List Char) :
    afterCrlf (c :: c2 :: cs) =
      if c = '\r' && c2 = '\n' then some cs else afterCrlf (c2 :: cs) := rfl

/-- Appending the first CRLF: when a character list has no CRLF, the
scanner lands exactly on an appended CRLF and yields what follows it. -/
theorem afterCrlf_append (r : List Char) :
    ∀ cs : List Char, afterCrlf cs = none →
      afterCrlf (cs ++ '\r' :: '\n' :: r) = some r := by
  intro cs
  induction cs with
  | nil => intro _; simp [afterCrlf_cons_cons]
  | cons c cs ih =>
    intro h
    cases cs with
    | nil => simp [afterCrlf_cons_cons]
    | cons c2 cs2 =>
      rw [afterCrlf_cons_cons] at h
      by_cases hc : (c = '\r' && c2 = '\n') = true
      · rw [if_pos hc] at h
        simp at h
      · rw [if_neg hc] at h
        have hsplit : (c :: c2 :: cs2) ++ '\r' :: '\n' :: r =
            c :: c2 :: (cs2 ++ '\r' :: '\n' :: r) := rfl
        rw [hsplit, afterCrlf_cons_cons, if_neg hc]
        exact ih h

/-- `getSolanaConnection` succeeds on a non-empty pool. -/
theorem getSolanaConnection_ok {endpoints : List String}
    (hne : endpoints ≠ []) (st : SolanaService.RpcState) :
    ∃ c st1, SolanaService.getSolanaConnection endpoints st = some (c, st1) := by
  cases hc : st.currentConnection with
  | some c => exact ⟨c, st, by simp [SolanaService.getSolanaConnection, hc]⟩
  | none =>
    refine ⟨endpoints.getD st.currentRpcIndex "",
      { st with currentConnection := some (endpoints.getD st.currentRpcIndex "") }, ?_⟩
    simp [SolanaService.getSolanaConnection, hc, hne]

/-- Unfolding equation for the inner attempt loop with fuel left. -/
theorem innerLoop_succ {E T : Type} (action : String → Nat → Except E T)
    (isRetriable : E → Bool) (conn : String) (lastCycle : Bool)
    (fuel total : Nat) :
    SolanaService.innerLoop action isRetriable conn lastCycle (fuel + 1) total =
      match action conn total with
      | Except.ok v => (SolanaService.InnerResult.ok v, total + 1)
      | Except.error e =>
        if fuel > 0 then
          if isRetriable e then
            SolanaService.innerLoop action isRetriable conn lastCycle fuel (total + 1)
          else (SolanaService.InnerResult.thrown e, total + 1)
        else if isRetriable e && !lastCycle then
          (SolanaService.InnerResult.switchRpc e, total + 1)
        else (SolanaService.InnerResult.thrown e, total + 1) := rfl

/-- Inner attempt loop on an endpoint whose action always fails with a
retriable error: it burns the whole per-endpoint budget, then throws on
the last cycle and breaks to switch otherwise. -/
theorem innerLoop_allFail {E T : Type} (action : String → Nat → Except E T)
    (isRetriable : E → Bool) (conn : String) (lastCycle : Bool)
    (hfail : ∀ n, ∃ e, action conn n = Except.error e ∧ isRetriable e = true) :
    ∀ fuel, 1 ≤ fuel → ∀ total, ∃ e, isRetriable e = true ∧
      SolanaService.innerLoop action isRetriable conn lastCycle fuel total =
        ((if lastCycle then SolanaService.InnerResult.thrown e
          else SolanaService.InnerResult.switchRpc e), total + fuel) := by
  intro fuel
  induction fuel with
  | zero => intro h; omega
  | succ f ih =>
    intro _ total
    obtain ⟨e, he, hr⟩ := hfail total
    cases f with
    | zero =>
      refine ⟨e, hr, ?_⟩
      rw [innerLoop_succ, he]
      cases lastCycle <;> simp [hr]
    | succ f2 =>
      obtain ⟨e2, hr2, heq⟩ := ih (by omega) (total + 1)
      refine ⟨e2, hr2, ?_⟩
      rw [innerLoop_succ, he]
      have harith : total + 1 + (f2 + 1) = total + (f2 + 1 + 1) := by omega
      simp only [gt_iff_lt, Nat.zero_lt_succ, if_true, hr, heq, harith]

/-- Unfolding equation for the outer failover loop with cycles left. -/
theorem outerLoop_succ {E T : Type} (endpoints : List String) (k : Nat)
    (action : String → Nat → Except E T) (isRetriable : E → Bool)
    (remaining : Nat) (st : SolanaService.RpcState) (total : Nat) :
    SolanaService.outerLoop endpoints k action isRetriable (remaining + 1) st total =
      match SolanaService.getSolanaConnection endpoints st with
      | none => (Except.error SolanaService.RpcErr.noEndpoints, st, total)
      | some (conn, st1) =>
        match SolanaService.innerLoop action isRetriable conn (remaining == 0) k total with
        | (SolanaService.InnerResult.ok v, total1) => (Except.ok v, st1, total1)
        | (SolanaService.InnerResult.thrown e, total1) =>
          (Except.error (SolanaService.RpcErr.actionErr e), st1, total1)
        | (SolanaService.InnerResult.switchRpc _, total1) =>
          if remaining > 0 then
            SolanaService.outerLoop endpoints k action isRetriable remaining
              (SolanaService.switchToNextRpc endpoints st1).2 total1
          else
            SolanaService.outerLoop endpoints k action isRetriable remaining st1 total1
        | (SolanaService.InnerResult.fellThrough, total1) =>
          if remaining > 0 then
            SolanaService.outerLoop endpoints k action isRetriable remaining
              (SolanaService.switchToNextRpc endpoints st1).2 total1
          else
            SolanaService.outerLoop endpoints k action isRetriable remaining st1 total1 := rfl

/-- Outer failover loop when every attempt on every endpoint fails with a
retriable error: every remaining cycle burns the full per-endpoint budget
and the last action error is rethrown. -/
theorem outerLoop_allFail {E T : Type} (endpoints : List String) (k : Nat)
    (action : String → Nat → Except E T) (isRetriable : E → Bool)
    (hne : endpoints ≠ []) (hk : 1 ≤ k)
    (hfail : ∀ c n, ∃ e, action c n = Except.error e ∧ isRetriable e = true) :
    ∀ r st total, ∃ e st1, isRetriable e = true ∧
      SolanaService.outerLoop endpoints k action isRetriable (r + 1) st total =
        (Except.error (SolanaService.RpcErr.actionErr e), st1, total + (r + 1) * k) := by
  intro r
  induction r with
  | zero =>
    intro st total
    obtain ⟨c, st1, hconn⟩ := getSolanaConnection_ok hne st
    obtain ⟨e, hr, hinner⟩ :=
      innerLoop_allFail action isRetriable c true (hfail c) k hk total
    have hinner2 : SolanaService.innerLoop action isRetriable c ((0 : Nat) == 0) k total =
        (SolanaService.InnerResult.thrown e, total + k) := by simpa using hinner
    refine ⟨e, st1, hr, ?_⟩
    rw [outerLoop_succ, hconn]
    dsimp only
    rw [hinner2]
    simp
  | succ r2 ih =>
    intro st total
    obtain ⟨c, st1, hconn⟩ := getSolanaConnection_ok hne st
    obtain ⟨e, hr, hinner⟩ :=
      innerLoop_allFail action isRetriable c false (hfail c) k hk total
    have hinner2 : SolanaService.innerLoop action isRetriable c ((r2 + 1 : Nat) == 0) k total =
        (SolanaService.InnerResult.switchRpc e, total + k) := by simpa using hinner
    obtain ⟨e2, st2, hr2, houter⟩ :=
      ih (SolanaService.switchToNextRpc endpoints st1).2 (total + k)
    refine ⟨e2, st2, hr2, ?_⟩
    rw [outerLoop_succ, hconn]
    dsimp only
    rw [hinner2]
    have harith : total + k + (r2 + 1) * k = total + (r2 + 1 + 1) * k := by ring
    simp only [gt_iff_lt, Nat.zero_lt_succ, if_true, houter, harith]

/-- A string beginning with MSG has the three leading characters fixed. -/
theorem startsWith_msg_shape (m : String) (h : strStartsWith m "MSG" = true) :
    ∃ t, m.data = 'M' :: 'S' :: 'G' :: t := by
  unfold strStartsWith at h
  rw [show ("MSG" : String).data = ['M', 'S', 'G'] from rfl] at h
  rcases hd : m.data with _ | ⟨c1, _ | ⟨c2, _ | ⟨c3, t⟩⟩⟩ <;> rw [hd] at h <;>
    simp [startsWithAux] at h
  obtain ⟨h1, h2, h3⟩ := h
  subst h1
  subst h2
  subst h3
  exact ⟨t, rfl⟩

/-- The if-chain classifies every MSG-prefixed frame as a data frame. -/
theorem classifyFrame_msg (m : String)
    (h : strStartsWith m "MSG" = true) :
    PumpFunListener.classifyFrame m = PumpFunListener.FrameKind.msg := by
  obtain ⟨t, ht⟩ := startsWith_msg_shape m h
  have hinfo : strStartsWith m "INFO" = false := by
    unfold strStartsWith
    rw [ht]
    rfl
  have hping : strEq m "PING" = false := by
    unfold strEq
    rw [ht]
    rfl
  simp [PumpFunListener.classifyFrame, hinfo, hping, h]

/-- When the alias chain is falsy, dispatch drops the frame with the
missing-identifier diagnostic (for any decoded value that is not `null`). -/
theorem dispatchDecoded_not_truthy (td : Json) (hnull : td ≠ Json.null)
    (h : truthyOpt (PumpFunListener.extractTokenAddress td) = false) :
    PumpFunListener.dispatchDecoded td = PumpFunListener.MsgOutcome.missingIdentifier := by
  cases td with
  | null => exact absurd rfl hnull
  | bool b =>
    cases hx : PumpFunListener.extractTokenAddress (Json.bool b) with
    | none => simp [PumpFunListener.dispatchDecoded, hx]
    | some a =>
      rw [hx] at h
      simp [PumpFunListener.dispatchDecoded, hx, truthyOpt] at h ⊢
      simp [h]
  | num n =>
    cases hx : PumpFunListener.extractTokenAddress (Json.num n) with
    | none => simp [PumpFunListener.dispatchDecoded, hx]
    | some a =>
      rw [hx] at h
      simp [PumpFunListener.dispatchDecoded, hx, truthyOpt] at h ⊢
      simp [h]
  | str s =>
    cases hx : PumpFunListener.extractTokenAddress (Json.str s) with
    | none => simp [PumpFunListener.dispatchDecoded, hx]
    | some a =>
      rw [hx] at h
      simp [PumpFunListener.dispatchDecoded, hx, truthyOpt] at h ⊢
      simp [h]
  | arr xs =>
    cases hx : PumpFunListener.extractTokenAddress (Json.arr xs) with
    | none => simp [PumpFunListener.dispatchDecoded, hx]
    | some a =>
      rw [hx] at h
      simp [PumpFunListener.dispatchDecoded, hx, truthyOpt] at h ⊢
      simp [h]
  | obj fs =>
    cases hx : PumpFunListener.extractTokenAddress (Json.obj fs) with
    | none => simp [PumpFunListener.dispatchDecoded, hx]
    | some a =>
      rw [hx] at h
      simp [PumpFunListener.dispatchDecoded, hx, truthyOpt] at h ⊢
      simp [h]

/-- `connect` preserves single-socket well-formedness. -/
theorem wf_connect (l : PumpFunListener.Listener)
    (hwf : PumpFunListener.wf l = true) :
    PumpFunListener.wf (PumpFunListener.connect l).1 = true := by
  cases hu : l.urlConfigured with
  | true => simp [PumpFunListener.connect, hu, PumpFunListener.wf]
  | false =>
    have hws : l.ws = none := by
      simp [PumpFunListener.wf, hu] at hwf
      cases hws : l.ws with
      | none => rfl
      | some h => rw [hws] at hwf; simp at hwf
    simp [PumpFunListener.connect, hu, PumpFunListener.wf, hws]

/-- Every event handler preserves single-socket well-formedness. -/
theorem wf_step (parse : String → Option Json) (l : PumpFunListener.Listener)
    (e : PumpFunListener.Event) (hwf : PumpFunListener.wf l = true) :
    PumpFunListener.wf (PumpFunListener.step parse l e).1 = true := by
  have hB : (l.urlConfigured || l.ws.isNone) = true := by
    rw [PumpFunListener.wf, Bool.and_eq_true] at hwf
    exact hwf.2
  cases e with
  | start =>
    simp only [PumpFunListener.step, PumpFunListener.start]
    split
    · exact hwf
    · split
      · exact hwf
      · exact wf_connect l hwf
  | wsOpen =>
    simp only [PumpFunListener.step, PumpFunListener.onOpen]
    cases hws : l.ws with
    | none => exact hwf
    | some h =>
      by_cases hrs : h.readyState = PumpFunListener.WsReady.CONNECTING
      · have hu : l.urlConfigured = true := by
          rw [hws] at hB
          simpa using hB
        simp [hrs, PumpFunListener.wf, hu]
      · simp [hrs]
        exact hwf
  | message d =>
    simp only [PumpFunListener.step, PumpFunListener.onMessage]
    cases hcf : PumpFunListener.classifyFrame (jsTrim d) with
    | info =>
      simp only
      split
      · simp [PumpFunListener.subscribeToTopics, PumpFunListener.wf, hB]
      · exact hwf
    | ping =>
      simp only
      split
      · simp [PumpFunListener.subscribeToTopics, PumpFunListener.wf, hB]
      · exact hwf
    | msg => exact hwf
    | okFrame =>
      simp only
      split
      · simp [PumpFunListener.wf, hB]
      · exact hwf
    | pong => exact hwf
    | errFrame => exact hwf
    | other => exact hwf
  | wsError =>
    simp only [PumpFunListener.step, PumpFunListener.onError]
    cases hws : l.ws with
    | none => exact hwf
    | some h =>
      by_cases hatt : h.handlersAttached = true
      · have hu : l.urlConfigured = true := by
          rw [hws] at hB
          simpa using hB
        simp [hatt, PumpFunListener.wf, hu]
      · simp [Bool.not_eq_true] at hatt
        simp [hatt]
        exact hwf
  | wsClose =>
    simp only [PumpFunListener.step, PumpFunListener.onClose]
    cases hws : l.ws with
    | none => exact hwf
    | some h =>
      by_cases hatt : h.handlersAttached = true
      · have hu : l.urlConfigured = true := by
          rw [hws] at hB
          simpa using hB
        simp [hatt, PumpFunListener.wf, hu]
      · simp [Bool.not_eq_true] at hatt
        simp [hatt]
        exact hwf
  | reconnectFire =>
    simp only [PumpFunListener.step, PumpFunListener.reconnectFire]
    split
    · apply wf_connect
      rw [PumpFunListener.wf, Bool.and_eq_true] at hwf ⊢
      exact hwf
    · exact hwf
  | stop =>
    cases hws : l.ws with
    | none => simp [PumpFunListener.step, PumpFunListener.stop, hws, PumpFunListener.wf]
    | some h => simp [PumpFunListener.step, PumpFunListener.stop, hws, PumpFunListener.wf]

/-! ## Claim theorems -/

/-- C1 counterexample: pool of 2 endpoints, 3 attempts per endpoint,
action always failing with a retriable error.  `executeRpcCall` does make
exactly 2 × 3 = 6 attempts, but the terminal error surfaced to the caller
is the last action error rethrown, not the exhausted-failover error. -/
theorem C1_counterexample :
    SolanaService.executeRpcCall ["A", "B"] 3
        (fun _ _ => (Except.error 0 : Except Nat Unit)) (fun _ => true) ⟨none, 0⟩ =
      (Except.error (SolanaService.RpcErr.actionErr 0), ⟨some "B", 1⟩, 6) ∧
    (SolanaService.RpcErr.actionErr 0 : SolanaService.RpcErr Nat) ≠
      SolanaService.RpcErr.exhausted :=
  ⟨rfl, by decide⟩

/-- C1 (amended): for every non-empty pool of N endpoints, positive
attempts-per-endpoint budget k, and action failing on every attempt with a
retriable error, `executeRpcCall` performs exactly N × k attempts and then
fails by rethrowing the last retriable action error as the terminal error;
the dedicated exhausted-failover fallback is not what the caller sees. -/
theorem C1_exhaustion_attempts_and_error :
    ∀ {E T : Type} (endpoints : List String) (k : Nat)
      (action : String → Nat → Except E T) (isRetriable : E → Bool),
      endpoints ≠ [] → 1 ≤ k →
      (∀ c n, ∃ e, action c n = Except.error e ∧ isRetriable e = true) →
      ∃ e st1, isRetriable e = true ∧
        SolanaService.executeRpcCall endpoints k action isRetriable ⟨none, 0⟩ =
          (Except.error (SolanaService.RpcErr.actionErr e), st1,
            endpoints.length * k) := by
  intro E T endpoints k action isRetriable hne hk hfail
  obtain ⟨m, hm⟩ : ∃ m, endpoints.length = m + 1 := by
    have := List.length_pos.mpr hne
    exact ⟨endpoints.length - 1, by omega⟩
  obtain ⟨e, st1, hr, h⟩ :=
    outerLoop_allFail endpoints k action isRetriable hne hk hfail m ⟨none, 0⟩ 0
  refine ⟨e, st1, hr, ?_⟩
  rw [SolanaService.executeRpcCall, hm, h]
  simp

/-- C1 witness: the amended statement instantiated on a singleton pool
with one attempt and a constant retriable failure. -/
theorem C1_exhaustion_attempts_and_error_witness :
    ∃ e st1, (fun _ : Nat => true) e = true ∧
      SolanaService.executeRpcCall ["A"] 1
          (fun _ _ => (Except.error 0 : Except Nat Unit)) (fun _ => true) ⟨none, 0⟩ =
        (Except.error (SolanaService.RpcErr.actionErr e), st1,
          (["A"] : List String).length * 1) :=
  C1_exhaustion_attempts_and_error ["A"] 1
    (fun _ _ => (Except.error 0 : Except Nat Unit)) (fun _ => true)
    (by simp) (by omega) (fun c n => ⟨0, rfl, rfl⟩)

/-- C2 counterexample: the wire frame with declared byte count 3 and
payload bytes a CR LF.  The handler's extracted payload is the single
byte a, not the 3 declared bytes: the declared length is never used and
the trailing CRLF of the payload is lost to the trim. -/
theorem C2_counterexample :
    PumpFunListener.specDeclaredByteCount (jsTrim "MSG s 2 3\r\na\r\n\r\n") = some 3 ∧
    extractPayload (jsTrim "MSG s 2 3\r\na\r\n\r\n") = some "a" ∧
    ("a" : String).length ≠ 3 :=
  ⟨rfl, rfl, by decide⟩

/-- C2 (amended): the handler locates only the start of the payload, by
scanning for the first CRLF of the (whitespace-trimmed) frame, and takes
the entire remainder as the payload; the declared byte count is ignored.
Delimiter-like bytes inside the remainder are preserved intact, but
trailing whitespace of the payload is lost to the trim and the declared
count is never honoured. -/
theorem C2_payload_is_remainder_after_first_crlf :
    ∀ header rest : String, afterCrlf header.data = none →
      extractPayload (header ++ "\r\n" ++ rest) = some rest := by
  intro header rest h
  unfold extractPayload
  have hdata : (header ++ "\r\n" ++ rest).data =
      header.data ++ '\r' :: '\n' :: rest.data := by
    show (header.data ++ ('\r' :: '\n' :: [])) ++ rest.data = _
    simp
  rw [hdata, afterCrlf_append rest.data header.data h]
  rfl

/-- C2 witness: a header without CRLF, and a payload that itself contains
a CRLF, extracted whole. -/
theorem C2_payload_is_remainder_after_first_crlf_witness :
    extractPayload ("MSG a 2 5" ++ "\r\n" ++ "x\r\ny") = some "x\r\ny" :=
  C2_payload_is_remainder_after_first_crlf "MSG a 2 5" "x\r\ny" rfl

/-- C3: after the trace start, socket open, socket close, stop, the
reconnect timer scheduled by the close handler is still pending (stop
holds no handle to cancel it), and when it fires it runs connect,
reopening a socket and moving the session to CONNECTING — a reconnect
attempt after an explicit stop, contradicting the claim. -/
theorem C3_reconnect_fires_after_stop :
    listenerStoppedAfterClose.natsState = PumpFunListener.NatsState.DISCONNECTED ∧
    listenerStoppedAfterClose.pendingReconnects = 1 ∧
    (PumpFunListener.step parseNone listenerStoppedAfterClose
        PumpFunListener.Event.reconnectFire).1.natsState =
      PumpFunListener.NatsState.CONNECTING ∧
    (PumpFunListener.step parseNone listenerStoppedAfterClose
        PumpFunListener.Event.reconnectFire).2 = [PumpFunListener.Action.openSocket] :=
  ⟨rfl, rfl, rfl, rfl⟩

/-- C4 counterexample: on a socket error event in an operational session,
the handler only sets the state to DISCONNECTED; the keep-alive interval
keeps running and no reconnect is scheduled by the error handler itself
(both happen only in the close handler), contradicting the claim that an
error event stops keep-alive and schedules exactly one reconnect. -/
theorem C4_counterexample :
    (PumpFunListener.step parseNone listenerOperational
        PumpFunListener.Event.wsError).1.natsState =
      PumpFunListener.NatsState.DISCONNECTED ∧
    (PumpFunListener.step parseNone listenerOperational
        PumpFunListener.Event.wsError).1.clientKeepAlive = true ∧
    PumpFunListener.countScheduleReconnect
      (PumpFunListener.step parseNone listenerOperational
        PumpFunListener.Event.wsError).2 = 0 :=
  ⟨rfl, rfl, rfl⟩

/-- C4 (amended): with the close/error handlers attached (no stop
requested), a close event from any state moves the session to
DISCONNECTED, stops the keep-alive interval and schedules exactly one
reconnect; an error event moves the state to DISCONNECTED but changes
nothing else (keep-alive stop and reconnect scheduling happen on the
close event that follows); and from DISCONNECTED, in any well-formed
state, no event other than a start request or a scheduled reconnect
firing moves the state.  The well-formedness invariant is preserved by
every event. -/
theorem C4_close_error_and_disconnected_transitions :
    ∀ parse : String → Option Json,
      (∀ (l : PumpFunListener.Listener) (h : PumpFunListener.WsHandle),
        l.ws = some h → h.handlersAttached = true →
        (PumpFunListener.step parse l PumpFunListener.Event.wsClose).1.natsState =
            PumpFunListener.NatsState.DISCONNECTED ∧
        (PumpFunListener.step parse l PumpFunListener.Event.wsClose).1.clientKeepAlive =
            false ∧
        PumpFunListener.countScheduleReconnect
            (PumpFunListener.step parse l PumpFunListener.Event.wsClose).2 = 1) ∧
      (∀ (l : PumpFunListener.Listener) (h : PumpFunListener.WsHandle),
        l.ws = some h → h.handlersAttached = true →
        (PumpFunListener.step parse l PumpFunListener.Event.wsError).1.natsState =
            PumpFunListener.NatsState.DISCONNECTED ∧
        (PumpFunListener.step parse l PumpFunListener.Event.wsError).1.clientKeepAlive =
            l.clientKeepAlive ∧
        (PumpFunListener.step parse l PumpFunListener.Event.wsError).2 = []) ∧
      (∀ (l : PumpFunListener.Listener) (e : PumpFunListener.Event),
        PumpFunListener.wf l = true →
        l.natsState = PumpFunListener.NatsState.DISCONNECTED →
        e ≠ PumpFunListener.Event.start → e ≠ PumpFunListener.Event.reconnectFire →
        (PumpFunListener.step parse l e).1.natsState =
          PumpFunListener.NatsState.DISCONNECTED) ∧
      (∀ (l : PumpFunListener.Listener) (e : PumpFunListener.Event),
        PumpFunListener.wf l = true → PumpFunListener.wf (PumpFunListener.step parse l e).1 = true) := by
  intro parse
  refine ⟨?_, ?_, ?_, fun l e hwf => wf_step parse l e hwf⟩
  · intro l h hws hatt
    refine ⟨?_, ?_, ?_⟩ <;>
      simp [PumpFunListener.step, PumpFunListener.onClose, hws, hatt,
        PumpFunListener.countScheduleReconnect]
  · intro l h hws hatt
    refine ⟨?_, ?_, ?_⟩ <;>
      simp [PumpFunListener.step, PumpFunListener.onError, hws, hatt]
  · intro l e hwf hdis hns hnr
    cases e with
    | start => exact absurd rfl hns
    | reconnectFire => exact absurd rfl hnr
    | wsOpen =>
      cases hws : l.ws with
      | none => simpa [PumpFunListener.step, PumpFunListener.onOpen, hws] using hdis
      | some h =>
        have hcl : h.readyState = PumpFunListener.WsReady.CLOSED := by
          rw [PumpFunListener.wf, Bool.and_eq_true] at hwf
          have := hwf.1
          rw [hdis, hws] at this
          simpa using this
        simp [PumpFunListener.step, PumpFunListener.onOpen, hws, hcl, hdis]
    | message d =>
      simp only [PumpFunListener.step, PumpFunListener.onMessage]
      cases hcf : PumpFunListener.classifyFrame (jsTrim d) <;>
        simp [hcf, hdis]
    | wsError =>
      cases hws : l.ws with
      | none => simpa [PumpFunListener.step, PumpFunListener.onError, hws] using hdis
      | some h =>
        by_cases hatt : h.handlersAttached = true
        · simp [PumpFunListener.step, PumpFunListener.onError, hws, hatt]
        · simp only [Bool.not_eq_true] at hatt
          simpa [PumpFunListener.step, PumpFunListener.onError, hws, hatt] using hdis
    | wsClose =>
      cases hws : l.ws with
      | none => simpa [PumpFunListener.step, PumpFunListener.onClose, hws] using hdis
      | some h =>
        by_cases hatt : h.handlersAttached = true
        · simp [PumpFunListener.step, PumpFunListener.onClose, hws, hatt]
        · simp only [Bool.not_eq_true] at hatt
          simpa [PumpFunListener.step, PumpFunListener.onClose, hws, hatt] using hdis
    | stop =>
      cases hws : l.ws <;> simp [PumpFunListener.step, PumpFunListener.stop, hws]

/-- C4 witness: the amended statement instantiated on an operational
session for the close event, and on a freshly constructed disconnected
session for a stop event. -/
theorem C4_close_error_and_disconnected_transitions_witness :
    (PumpFunListener.step parseNone listenerOperational
        PumpFunListener.Event.wsClose).1.natsState =
      PumpFunListener.NatsState.DISCONNECTED ∧
    (PumpFunListener.step parseNone listenerInit
        PumpFunListener.Event.stop).1.natsState =
      PumpFunListener.NatsState.DISCONNECTED :=
  ⟨((C4_close_error_and_disconnected_transitions parseNone).1 listenerOperational
      ⟨PumpFunListener.WsReady.OPEN, true⟩ rfl rfl).1,
   (C4_close_error_and_disconnected_transitions parseNone).2.2.1 listenerInit
      PumpFunListener.Event.stop rfl rfl (by decide) (by decide)⟩

/-- C5: an action whose first attempt fails with a non-retriable error is
propagated immediately: exactly 1 attempt, no endpoint rotation (index
still 0, connection still the first endpoint). -/
theorem C5_nonretriable_propagates_immediately :
    ∀ {E T : Type} (endpoints : List String) (k : Nat)
      (action : String → Nat → Except E T) (isRetriable : E → Bool) (e : E),
      endpoints ≠ [] → 1 ≤ k →
      action (endpoints.getD 0 "") 0 = Except.error e →
      isRetriable e = false →
      SolanaService.executeRpcCall endpoints k action isRetriable ⟨none, 0⟩ =
        (Except.error (SolanaService.RpcErr.actionErr e),
          ⟨some (endpoints.getD 0 ""), 0⟩, 1) := by
  intro E T endpoints k action isRetriable e hne hk hact hret
  cases endpoints with
  | nil => exact absurd rfl hne
  | cons a rest =>
    cases k with
    | zero => omega
    | succ f =>
      have hact2 : action a 0 = Except.error e := by simpa using hact
      have hconn : SolanaService.getSolanaConnection (a :: rest) ⟨none, 0⟩ =
          some (a, ⟨some a, 0⟩) := by
        simp [SolanaService.getSolanaConnection]
      have hinner : SolanaService.innerLoop action isRetriable a
          (rest.length == 0) (f + 1) 0 =
          (SolanaService.InnerResult.thrown e, 1) := by
        rw [innerLoop_succ, hact2]
        cases f with
        | zero => simp [hret]
        | succ f2 => simp [hret]
      show SolanaService.outerLoop (a :: rest) (f + 1) action isRetriable
          (a :: rest).length ⟨none, 0⟩ 0 = _
      rw [show (a :: rest).length = rest.length + 1 from rfl, outerLoop_succ, hconn]
      dsimp only
      rw [hinner]
      simp

/-- C5 witness: a two-endpoint pool with the default budget of 3 and a
non-retriable failure on attempt one. -/
theorem C5_nonretriable_propagates_immediately_witness :
    SolanaService.executeRpcCall ["A", "B"] 3
        (fun _ _ => (Except.error 7 : Except Nat Unit)) (fun _ => false) ⟨none, 0⟩ =
      (Except.error (SolanaService.RpcErr.actionErr 7),
        ⟨some ((["A", "B"] : List String).getD 0 ""), 0⟩, 1) :=
  C5_nonretriable_propagates_immediately ["A", "B"] 3
    (fun _ _ => (Except.error 7 : Except Nat Unit)) (fun _ => false) 7
    (by simp) (by omega) rfl rfl

/-- C6: with pool [A, B] and 2 attempts per endpoint, an action that fails
twice on A with retriable errors and succeeds on its first attempt against
B makes exactly 3 attempts in total, leaves the pool's current endpoint at
B, and returns the success. -/
theorem C6_two_endpoint_failover_scenario :
    ∀ {E T : Type} (action : String → Nat → Except E T)
      (isRetriable : E → Bool) (e0 e1 : E) (v : T),
      action "A" 0 = Except.error e0 → isRetriable e0 = true →
      action "A" 1 = Except.error e1 → isRetriable e1 = true →
      action "B" 2 = Except.ok v →
      SolanaService.executeRpcCall ["A", "B"] 2 action isRetriable ⟨none, 0⟩ =
        (Except.ok v, ⟨some "B", 1⟩, 3) := by
  intro E T action isRetriable e0 e1 v h0 hr0 h1 hr1 hok
  simp [SolanaService.executeRpcCall, SolanaService.outerLoop, SolanaService.innerLoop,
        SolanaService.getSolanaConnection, SolanaService.switchToNextRpc,
        h0, hr0, h1, hr1, hok]

/-- C6 witness: the scenario with a concrete action. -/
theorem C6_two_endpoint_failover_scenario_witness :
    SolanaService.executeRpcCall ["A", "B"] 2
        (fun c _ => if c = "A" then (Except.error 7 : Except Nat Nat) else Except.ok 42)
        (fun _ => true) ⟨none, 0⟩ =
      (Except.ok 42, ⟨some "B", 1⟩, 3) :=
  C6_two_endpoint_failover_scenario
    (fun c _ => if c = "A" then (Except.error 7 : Except Nat Nat) else Except.ok 42)
    (fun _ => true) 7 7 42 rfl rfl rfl rfl rfl

/-- C7: when the first decode pass yields a string, exactly one more pass
runs on that string and its result is the decoded object (2 passes); when
the first pass yields a non-string value, no second pass occurs and the
first result is used (1 pass). -/
theorem C7_double_decode_passes :
    (∀ (parse : String → Option Json) (s t : String) (w : Json),
      parse s = some (Json.str t) → parse t = some w →
      PumpFunListener.decodePayload parse s = some (w, 2)) ∧
    (∀ (parse : String → Option Json) (s : String) (v : Json),
      parse s = some v → isJsonStr v = false →
      PumpFunListener.decodePayload parse s = some (v, 1)) := by
  constructor
  · intro parse s t w h1 h2
    simp [PumpFunListener.decodePayload, h1, h2]
  · intro parse s v h1 h2
    cases v <;> simp_all [PumpFunListener.decodePayload, isJsonStr]

/-- C7 witness: a double-encoded payload decoded in 2 passes and a
directly structured payload decoded in 1 pass, under `parseTwoPass`. -/
theorem C7_double_decode_passes_witness :
    PumpFunListener.decodePayload parseTwoPass "S" = some (Json.obj [], 2) ∧
    PumpFunListener.decodePayload parseTwoPass "O" = some (Json.num 5, 1) :=
  ⟨C7_double_decode_passes.1 parseTwoPass "S" "T" (Json.obj []) rfl rfl,
   C7_double_decode_passes.2 parseTwoPass "O" (Json.num 5) rfl rfl⟩

/-- C8: the identifier alias chain tries coinMint, mint, token_address,
address in order: on the payload with mint X and address Y it dispatches
with identifier X; whenever some alias is truthy the chain returns the
first truthy alias value in that order; and when no alias yields a truthy
identifier the frame is dropped with a diagnostic and no consumer callback
is invoked. -/
theorem C8_alias_order_and_missing_identifier :
    PumpFunListener.dispatchDecoded tdMintX =
      PumpFunListener.MsgOutcome.dispatched (Json.str "X") tdMintX ∧
    (∀ td : Json, truthyOpt (PumpFunListener.extractTokenAddress td) = true →
      PumpFunListener.extractTokenAddress td =
        PumpFunListener.specFirstTruthyAlias td PumpFunListener.specAliasOrder) ∧
    (∀ td : Json, td ≠ Json.null →
      truthyOpt (PumpFunListener.extractTokenAddress td) = false →
      PumpFunListener.dispatchDecoded td =
          PumpFunListener.MsgOutcome.missingIdentifier ∧
      PumpFunListener.droppedWithDiagnostic (PumpFunListener.dispatchDecoded td) = true) := by
  refine ⟨rfl, ?_, ?_⟩
  · intro td htruthy
    simp only [PumpFunListener.extractTokenAddress, jsOr,
      PumpFunListener.specFirstTruthyAlias, PumpFunListener.specAliasOrder] at htruthy ⊢
    split_ifs at htruthy ⊢ <;> simp_all
  · intro td hnull hfalsy
    have hmiss := dispatchDecoded_not_truthy td hnull hfalsy
    exact ⟨hmiss, by rw [hmiss]; rfl⟩

/-- C8 witness: the order property on a payload with only a truthy
coinMint, and the drop property on an empty object. -/
theorem C8_alias_order_and_missing_identifier_witness :
    PumpFunListener.extractTokenAddress tdCoinMintC =
      PumpFunListener.specFirstTruthyAlias tdCoinMintC PumpFunListener.specAliasOrder ∧
    PumpFunListener.dispatchDecoded (Json.obj []) =
      PumpFunListener.MsgOutcome.missingIdentifier :=
  ⟨C8_alias_order_and_missing_identifier.2.1 tdCoinMintC rfl,
   (C8_alias_order_and_missing_identifier.2.2 (Json.obj [])
      (fun h => Json.noConfusion h) rfl).1⟩

/-- C9: a frame with fewer than 4 whitespace-separated header fields, a
frame without the CRLF payload separator, and a frame whose payload fails
structured decoding at either pass are each dropped with a diagnostic (the
handler returns a drop outcome instead of throwing); and the message
handler leaves the whole session state unchanged on every MSG frame, so an
Operational session stays Operational. -/
theorem C9_malformed_and_undecodable_frames_dropped :
    (∀ (parse : String → Option Json) (m : String),
      (jsSplitWs m).length < 4 →
      PumpFunListener.handleNatsMsg parse m =
          PumpFunListener.MsgOutcome.malformedHeader ∧
      PumpFunListener.droppedWithDiagnostic (PumpFunListener.handleNatsMsg parse m) = true) ∧
    (∀ (parse : String → Option Json) (m : String),
      ¬ (jsSplitWs m).length < 4 → afterCrlf m.data = none →
      PumpFunListener.handleNatsMsg parse m =
          PumpFunListener.MsgOutcome.missingSeparator ∧
      PumpFunListener.droppedWithDiagnostic (PumpFunListener.handleNatsMsg parse m) = true) ∧
    (∀ (parse : String → Option Json) (m : String) (pl : List Char),
      ¬ (jsSplitWs m).length < 4 → afterCrlf m.data = some pl →
      (jsSplitWs m).getD 2 "" = "2" →
      (jsSplitWs m).getD 1 "" = "advancedCoinGraduated" →
      PumpFunListener.decodePayload parse (String.mk pl) = none →
      PumpFunListener.handleNatsMsg parse m =
          PumpFunListener.MsgOutcome.parseError ∧
      PumpFunListener.droppedWithDiagnostic (PumpFunListener.handleNatsMsg parse m) = true) ∧
    (∀ (parse : String → Option Json) (l : PumpFunListener.Listener) (data : String),
      strStartsWith (jsTrim data) "MSG" = true →
      (PumpFunListener.step parse l (PumpFunListener.Event.message data)).1 = l) := by
  refine ⟨?_, ?_, ?_, ?_⟩
  · intro parse m hlen
    constructor <;>
      simp [PumpFunListener.handleNatsMsg, hlen, PumpFunListener.droppedWithDiagnostic]
  · intro parse m hlen hsep
    constructor <;>
      simp [PumpFunListener.handleNatsMsg, hlen, extractPayload, hsep,
        PumpFunListener.droppedWithDiagnostic]
  · intro parse m pl hlen hsep hsid hsubj hdec
    simp only [List.getD, List.get?_eq_getElem?] at hsid hsubj
    constructor <;>
      simp [PumpFunListener.handleNatsMsg, hlen, extractPayload, hsep, hsid, hsubj, hdec,
        PumpFunListener.droppedWithDiagnostic, List.getD]
  · intro parse l data hmsg
    simp [PumpFunListener.step, PumpFunListener.onMessage,
      classifyFrame_msg (jsTrim data) hmsg]

/-- C9 witness: the three drop branches on concrete frames under an
always-failing parse oracle, and state preservation of an operational
session on a concrete MSG frame. -/
theorem C9_malformed_and_undecodable_frames_dropped_witness :
    PumpFunListener.handleNatsMsg parseNone "MSG a 2" =
      PumpFunListener.MsgOutcome.malformedHeader ∧
    PumpFunListener.handleNatsMsg parseNone "MSG a 2 5" =
      PumpFunListener.MsgOutcome.missingSeparator ∧
    PumpFunListener.handleNatsMsg parseNone "MSG advancedCoinGraduated 2 2\r\nxx" =
      PumpFunListener.MsgOutcome.parseError ∧
    (PumpFunListener.step parseNone listenerOperational
        (PumpFunListener.Event.message "MSG a 2 5\r\nxx")).1 = listenerOperational :=
  ⟨(C9_malformed_and_undecodable_frames_dropped.1 parseNone "MSG a 2" (by decide)).1,
   (C9_malformed_and_undecodable_frames_dropped.2.1 parseNone "MSG a 2 5"
      (by decide) rfl).1,
   (C9_malformed_and_undecodable_frames_dropped.2.2.1 parseNone
      "MSG advancedCoinGraduated 2 2\r\nxx" ['x', 'x']
      (by decide) rfl rfl rfl rfl).1,
   C9_malformed_and_undecodable_frames_dropped.2.2.2 parseNone listenerOperational
      "MSG a 2 5\r\nxx" rfl⟩

/-- C10: because the alias chain uses JS truthiness, a present-but-empty
alias is skipped for the next one (coinMint empty, mint X dispatches X),
and a payload in which every alias is absent or the empty string is
treated as having a missing identifier, so no consumer callback runs. -/
theorem C10_falsy_alias_fallthrough :
    PumpFunListener.dispatchDecoded tdEmptyCoinMint =
      PumpFunListener.MsgOutcome.dispatched (Json.str "X") tdEmptyCoinMint ∧
    (∀ td : Json, td ≠ Json.null →
      (jsGet td "coinMint" = none ∨ jsGet td "coinMint" = some (Json.str "")) →
      (jsGet td "mint" = none ∨ jsGet td "mint" = some (Json.str "")) →
      (jsGet td "token_address" = none ∨ jsGet td "token_address" = some (Json.str "")) →
      (jsGet td "address" = none ∨ jsGet td "address" = some (Json.str "")) →
      PumpFunListener.dispatchDecoded td =
        PumpFunListener.MsgOutcome.missingIdentifier) := by
  refine ⟨rfl, ?_⟩
  intro td hnull h1 h2 h3 h4
  have t1 : truthyOpt (jsGet td "coinMint") = false := by
    rcases h1 with h | h <;> simp [h, truthyOpt, truthyJson]
  have t2 : truthyOpt (jsGet td "mint") = false := by
    rcases h2 with h | h <;> simp [h, truthyOpt, truthyJson]
  have t3 : truthyOpt (jsGet td "token_address") = false := by
    rcases h3 with h | h <;> simp [h, truthyOpt, truthyJson]
  have t4 : truthyOpt (jsGet td "address") = false := by
    rcases h4 with h | h <;> simp [h, truthyOpt, truthyJson]
  refine dispatchDecoded_not_truthy td hnull ?_
  simp [PumpFunListener.extractTokenAddress, jsOr, t1, t2, t3, t4]

/-- C10 witness: a payload whose every alias is absent or empty is
dropped without dispatch. -/
theorem C10_falsy_alias_fallthrough_witness :
    PumpFunListener.dispatchDecoded (Json.obj [("coinMint", Json.str "")]) =
      PumpFunListener.MsgOutcome.missingIdentifier :=
  C10_falsy_alias_fallthrough.2 (Json.obj [("coinMint", Json.str "")])
    (fun h => Json.noConfusion h) (Or.inr rfl) (Or.inl rfl) (Or.inl rfl) (Or.inl rfl)

end Solbot
